import Mathlib

/-!
Verification development for the chart-spec compiler in
`chartlib/chart_spec.py` (class `ChartSpec`).

The Python class is a dictionary wrapper (`DotDict`) holding a flat
configuration map plus a per-compile transient overlay stored under the
key `'transient'`; `compile(df)` validates the configuration, populates
the transient overlay (color map, legend-title aliasing), and assembles
an ordered sequence of named layers.

Shallow embedding conventions:
* configuration values are the inductive `CVal` (Python booleans,
  integers, strings, group-to-color dictionaries, 2-element domains);
* the configuration is an association list with first-match lookup,
  with the transient overlay held in a separate `Option` field (the
  Python code stores it under `self['transient']` and only ever reaches
  it through that key);
* dataframes are association lists from column name to a list of cell
  values (`DVal`), with `None`/`NaN` as `DVal.null`;
* Python numbers appearing in the extrapolation model are embedded as
  `Int` (day counts) and `Rat` (y values);
* fallible Python code (KeyError / IndexError / ValueError) is embedded
  with `Except String`.
-/

/-- A heterogeneous configuration value, as stored in the `ChartSpec`
dictionary. `vColormap` is a Python `dict` mapping group name to color;
`vIntPair` is a 2-element domain such as `xdomain`/`ydomain`. -/
inductive CVal where
  | vBool (b : Bool)
  | vInt (n : Int)
  | vStr (s : String)
  | vColormap (m : List (String × String))
  | vIntPair (lo hi : Int)
  deriving DecidableEq, Repr

/-- A dataframe cell value. `null` stands for `None`/`NaN`. -/
inductive DVal where
  | s (v : String)
  | i (v : Int)
  | null
  deriving DecidableEq, Repr

/-- First-match lookup in an association list, i.e. Python `dict`
lookup for dictionaries built without duplicate keys. -/
def lookupC {α : Type} (m : List (String × α)) (k : String) : Option α :=
  match m with
  | [] => none
  | (k', v) :: rest => if k' = k then some v else lookupC rest k

/-- Key membership in an association list (Python `key in dict`). -/
def containsKey {α : Type} (m : List (String × α)) (k : String) : Bool :=
  match m with
  | [] => false
  | (k', _) :: rest => if k' = k then true else containsKey rest k

/-- The values of an association list (Python `dict.values()`). -/
def valuesOf {α : Type} (m : List (String × α)) : List α :=
  m.map Prod.snd

/-- Update an association list at a key: replace the first binding in
place, or append a new binding (Python `dict[k] = v`). -/
def updateC {α : Type} (m : List (String × α)) (k : String) (v : α) :
    List (String × α) :=
  match m with
  | [] => [(k, v)]
  | (k', v') :: rest =>
      if k' = k then (k', v) :: rest else (k', v') :: updateC rest k v

/-- Python truthiness of a configuration value. -/
def truthy : CVal → Bool
  | .vBool b => b
  | .vInt n => n != 0
  | .vStr s => s ≠ ""
  | .vColormap m => ¬ m.isEmpty
  | .vIntPair _ _ => true

/-- Python `str()` of a configuration value, as used in f-string
interpolation. -/
def strOf : CVal → String
  | .vBool b => cond b "True" "False"
  | .vInt n => toString n
  | .vStr s => s
  | .vColormap _ => "<dict>"
  | .vIntPair a b => "(" ++ toString a ++ ", " ++ toString b ++ ")"

/-- The state of a `ChartSpec` object: the base configuration
dictionary, plus the transient overlay (`self['transient']`), which is
`none` outside a compile call. -/
structure ChartState where
  base : List (String × CVal)
  transient : Option (List (String × CVal))
  deriving DecidableEq, Repr

/-- `self.get(key)` on the base dictionary (Python `dict.get`,
returning `None` as `none` when the key is absent). -/
def cget (st : ChartState) (k : String) : Option CVal :=
  lookupC st.base k

/-- `self.get(key, default)` with a value default. -/
def cgetD (st : ChartState) (k : String) (d : CVal) : CVal :=
  (cget st k).getD d

/-- `key in self` on the base dictionary. -/
def ccontains (st : ChartState) (k : String) : Bool :=
  containsKey st.base k

/-- Truthiness of `self.get(key, default)` for a boolean default, the
idiom used for all the feature flags. -/
def truthyD (st : ChartState) (k : String) (d : Bool) : Bool :=
  match cget st k with
  | some v => truthy v
  | none => d

/-- Modelled from the spec: the `DotDict` wrapper (`dot_dict.py`, not
present under `src/`) gives attribute-style field access over the
dictionary; a missing key surfaces as a key-lookup error, matching the
spec's description of `xdomain` access failures as key-lookup errors. -/
def attrVal (st : ChartState) (k : String) : Except String CVal :=
  match cget st k with
  | some v => .ok v
  | none => .error ("KeyError: " ++ k)

/-- `ChartSpec._prefer_transient(key, default)`: overlay value if the
overlay exists and has the key, else base value, else default. -/
def preferTransient (st : ChartState) (k : String) (d : Option CVal) :
    Option CVal :=
  match st.transient with
  | none => (cget st k).orElse (fun _ => d)
  | some t => (lookupC t k).orElse (fun _ => (cget st k).orElse (fun _ => d))

/-- Create the empty transient overlay (`self[TRANSIENT] = DotDict()`). -/
def populateBegin (st : ChartState) : ChartState :=
  { st with transient := some [] }

/-- Write a key into the transient overlay
(`self[TRANSIENT][key] = value`). -/
def setTransientKey (st : ChartState) (k : String) (v : CVal) : ChartState :=
  { st with transient := some (updateC (st.transient.getD []) k v) }

/-- `ChartSpec._font`: a plain base lookup with default `'Khula'`
(`DEFAULT_FONT`); note it does not consult the transient overlay. -/
def fontProp (st : ChartState) : CVal :=
  cgetD st "font" (.vStr "Khula")

/-- `ChartSpec._colorby`: overlay-aware lookup of `'colorby'`. -/
def colorbyProp (st : ChartState) : Option CVal :=
  preferTransient st "colorby" none

/-- `ChartSpec._detailby`: overlay-aware lookup of `'detailby'`. -/
def detailbyProp (st : ChartState) : Option CVal :=
  preferTransient st "detailby" none

/-- `ChartSpec._colormap`: overlay-aware lookup of `'colormap'`. -/
def colormapProp (st : ChartState) : Option CVal :=
  preferTransient st "colormap" none

/-- `ChartSpec._height`: plain base lookup, default 400. -/
def heightProp (st : ChartState) : CVal :=
  cgetD st "height" (.vInt 400)

/-- `ChartSpec._width`: plain base lookup, default 600. -/
def widthProp (st : ChartState) : CVal :=
  cgetD st "width" (.vInt 600)

/-- `ChartSpec._manual_legend`: plain base lookup of
`'use_manual_legend'`, default `False`. -/
def manualLegendProp (st : ChartState) : Bool :=
  truthyD st "use_manual_legend" false

/-- A dataframe: named columns of cell values. -/
structure DataFrame where
  cols : List (String × List DVal)
  deriving DecidableEq, Repr

/-- `df.columns`. -/
def DataFrame.columns (df : DataFrame) : List String :=
  df.cols.map Prod.fst

/-- `df[name]`, raising `KeyError` when the column is absent. -/
def getCol (df : DataFrame) (k : String) : Except String (List DVal) :=
  match lookupC df.cols k with
  | some col => .ok col
  | none => .error ("KeyError: " ++ k)

/-- The string key of a cell value, used where the Python code employs
data values as dictionary keys or dropdown options. -/
def asKey : DVal → String
  | .s v => v
  | .i v => toString v
  | .null => "None"

/-- Auxiliary for `uniqueFirst`: drop values already seen. -/
def uniqueFirstAux {α : Type} [DecidableEq α] (seen : List α) :
    List α → List α
  | [] => []
  | x :: rest =>
      if x ∈ seen then uniqueFirstAux seen rest
      else x :: uniqueFirstAux (x :: seen) rest

/-- First-occurrence distinct values of a list (pandas
`Series.unique()` keeps encounter order). -/
def uniqueFirst {α : Type} [DecidableEq α] (l : List α) : List α :=
  uniqueFirstAux [] l

/-- The concatenated hex digits from which `ChartSpec.COLOR_SCHEME` is
built (five adjacent string literals in the source). -/
def colorHex : String :=
  "4e79a7f28e2ce1575976b7b259a14fedc949af7aa1ff9da79c755fbab0ab" ++
  "1f77b4ff7f0e2ca02cd627289467bd8c564be377c27f7f7fbcbd2217becf" ++
  "a6cee31f78b4b2df8a33a02cfb9a99e31a1cfdbf6fff7f00cab2d66a3d9affff99b15928" ++
  "7fc97fbeaed4fdc086ffff99386cb0f0027fbf5b17666666" ++
  "1b9e77d95f027570b3e7298a66a61ee6ab02a6761d666666"

/-- Successive 6-character slices of a character list (the Python list
comprehension `[s[i:i+6] for i in range(0, 1000, 6)]` with the empty
out-of-range slices filtered away; the hex string's length is a
multiple of 6, so no short final slice arises). -/
def chunk6 : List Char → List String
  | [] => []
  | c1 :: c2 :: c3 :: c4 :: c5 :: c6 :: rest =>
      String.mk [c1, c2, c3, c4, c5, c6] :: chunk6 rest
  | l => [String.mk l]

/-- `ChartSpec.COLOR_SCHEME`: each 6-digit chunk prefixed with `#`,
followed by the named fallback colors. -/
def colorScheme : List String :=
  (chunk6 colorHex.toList).map (fun c => "#" ++ c) ++
    ["red", "blue", "green", "purple", "orange"]

/-- The cursor scan of `_populate_transient_colormap`'s `while` loop:
walk the remaining palette, skipping entries already used as values of
the color map, and return the first unused color together with the
palette remaining after it.  `none` models the `IndexError` Python
raises when the palette is exhausted. -/
def findUnusedSplit (used : List String) :
    List String → Option (String × List String)
  | [] => none
  | c :: rest =>
      if c ∈ used then findUnusedSplit used rest else some (c, rest)

/-- The group loop of `ChartSpec._populate_transient_colormap`: fold
the distinct group values in encounter order over the color map `cm`,
keeping groups already present, assigning the default color when one
is configured, and otherwise assigning the first palette color not yet
used as a value (the unconsumed palette plays the role of the
`color_scheme_idx` cursor). -/
def assignColors (cm : List (String × String)) (palette : List String)
    (defaultColor : Option String) :
    List String → Except String (List (String × String))
  | [] => .ok cm
  | g :: gs =>
      if containsKey cm g then assignColors cm palette defaultColor gs
      else
        match defaultColor with
        | some c => assignColors (cm ++ [(g, c)]) palette defaultColor gs
        | none =>
            match findUnusedSplit (valuesOf cm) palette with
            | some (c, rest) =>
                assignColors (cm ++ [(g, c)]) rest defaultColor gs
            | none => .error "IndexError: list index out of range"

/-- `self.get('default_color', None)`, coerced to the color string the
Python code stores. -/
def defaultColorOf (st : ChartState) : Option String :=
  (cget st "default_color").map strOf

/-- `ChartSpec._populate_transient_colormap(df)`: a no-op when no
`'colormap'` is configured; otherwise copy the user mapping, extend it
over the distinct values of the `_colorby` column of `df`, and write
the result into the transient overlay. -/
def populateTransientColormapState (st : ChartState) (df : DataFrame) :
    Except String ChartState :=
  match cget st "colormap" with
  | none => .ok st
  | some (.vColormap pairs) =>
      match colorbyProp st with
      | none => .error "KeyError: None"
      | some v =>
          match getCol df (strOf v) with
          | .error e => .error e
          | .ok colv =>
              match assignColors pairs colorScheme (defaultColorOf st)
                  (uniqueFirst (colv.map asKey)) with
              | .ok m => .ok (setTransientKey st "colormap" (.vColormap m))
              | .error e => .error e
  | some _ => .error "TypeError: colormap is not a dict"

/-- `ChartSpec._get_old_legend_title`. -/
def oldLegendTitle (st : ChartState) : String :=
  match cget st "readable_group_name" with
  | some v =>
      if truthyD st "legend_selection" false then "Select_" ++ strOf v
      else strOf v
  | none => strOf ((cget st "colorby").getD (.vStr "None"))

/-- `ChartSpec._populate_transient_props(df)`: populate the transient
color map, then alias `colorby`/`detailby` to the legend title when a
readable group name is configured together with legend selection. -/
def populateTransientProps (st : ChartState) (df : DataFrame) :
    Except String ChartState :=
  match populateTransientColormapState st df with
  | .error e => .error e
  | .ok st' =>
    match cget st' "readable_group_name", truthyD st' "legend_selection" false with
    | some _, true =>
        Except.ok
          (setTransientKey
            (setTransientKey st' "colorby" (.vStr (oldLegendTitle st')))
            "detailby" (.vStr (oldLegendTitle st')))
    | _, _ => Except.ok st'

/-- Whether a configuration value is a Python dictionary, as tested by
`isinstance(colormap, dict)` in `validate`. -/
def isDictVal : CVal → Bool
  | .vColormap _ => true
  | _ => false

/-- The trailing legend-selection check of `ChartSpec.validate`. -/
def validateLegendPart (st : ChartState) : Except String Unit :=
  if truthyD st "legend_selection" false then
    match attrVal st "detailby", attrVal st "colorby" with
    | .ok d, .ok c =>
        if d ≠ c then
          .error "when legend selection enabled, detailby and colorby should be identical"
        else .ok ()
    | .error e, _ => .error e
    | .ok _, .error e => .error e
  else .ok ()

/-- `ChartSpec.validate(df)`: the fail-fast configuration checks run at
the start of `compile`, in source order. -/
def validate (st : ChartState) (df : DataFrame) : Except String Unit :=
  if ccontains st "lines" = false ∧ ccontains st "points" = false then
    .error "should have at least one of lines or points"
  else if ¬ ("x" ∈ df.columns) then
    .error "dataframe should have an x column"
  else if ¬ ("y" ∈ df.columns) then
    .error "dataframe should have a y column"
  else if truthyD st "click_selection" false = false ∧
      truthyD st "legend_selection" false = false then
    .error "one of click or legend selection should be specified"
  else
    match cget st "colormap" with
    | some cm =>
        match attrVal st "detailby", attrVal st "colorby" with
        | .ok d, .ok c =>
            if d ≠ c then
              .error "when colormap specified, detailby and colorby should be identical"
            else if isDictVal cm = false then
              .error "expected dictionary for colormap"
            else validateLegendPart st
        | .error e, _ => .error e
        | .ok _, .error e => .error e
    | none => validateLegendPart st

/-- The renderer's boolean expression language, as assembled by the
`ChartSpec` predicate builders: literal flags interpolated from the
configuration, opaque atomic conditions (carried with their exact
source text), and the `&&`/`||`/`!` connectives.  `_ensure_parens`
grouping is implicit in the tree structure. -/
inductive BExpr where
  | lit (b : Bool)
  | atom (s : String)
  | band (l r : BExpr)
  | bor (l r : BExpr)
  | bnot (e : BExpr)
  deriving DecidableEq, Repr

/-- Evaluate an expression against a datum/selection environment that
assigns a truth value to every atomic condition. -/
def evalB (env : String → Bool) : BExpr → Bool
  | .lit b => b
  | .atom s => env s
  | .band l r => evalB env l && evalB env r
  | .bor l r => evalB env l || evalB env r
  | .bnot e => !(evalB env e)

/-- `f'{self._detailby}'`: the detail column name as interpolated into
expressions (Python renders a missing value as `None`). -/
def detailFieldStr (st : ChartState) : String :=
  match detailbyProp st with
  | some v => strOf v
  | none => "None"

/-- `ChartSpec._click_is_active`. -/
def clickIsActiveExpr (st : ChartState) : BExpr :=
  .band (.lit (truthyD st "click_selection" false))
    (.band (.atom ("isValid(click." ++ detailFieldStr st ++ ")"))
      (.atom ("click." ++ detailFieldStr st ++ " != \x22\x22")))

/-- `ChartSpec._old_legend_is_active` (native-legend mode). -/
def oldLegendIsActiveExpr (st : ChartState) : BExpr :=
  .band (.lit (truthyD st "legend_selection" false))
    (.band (.atom ("isDefined(legend." ++ detailFieldStr st ++ ")"))
      (.band (.atom ("(!isDefined(click) || !isDefined(click_" ++
          detailFieldStr st ++ "))"))
        (if cget st "facetby" = none then
          .band (.atom "isValid(legend_tuple)")
            (.atom "!isDefined(legend_tuple.unit)")
        else
          .atom ("isValid(legend_" ++ detailFieldStr st ++ "_legend)"))))

/-- `ChartSpec._legend_is_active`: dispatches on the manual-legend
flag. -/
def legendIsActiveExpr (st : ChartState) : BExpr :=
  if manualLegendProp st = false then oldLegendIsActiveExpr st
  else
    .band (.atom "isValid(legend_hover)")
      (.band (.atom "isValid(legend_hover.group_idx)")
        (.atom "legend_hover.group_idx > -1"))

/-- `ChartSpec._click_focused`. -/
def clickFocusedExpr (st : ChartState) : BExpr :=
  .band (clickIsActiveExpr st)
    (.atom ("indexof(click." ++ detailFieldStr st ++ ", datum." ++
      detailFieldStr st ++ ") >= 0"))

/-- `ChartSpec._old_legend_focused`. -/
def oldLegendFocusedExpr (st : ChartState) : BExpr :=
  .band (legendIsActiveExpr st)
    (.atom ("indexof(legend." ++ detailFieldStr st ++ ", datum." ++
      detailFieldStr st ++ ") >= 0"))

/-- `ChartSpec._legend_hover_focused`: dispatches on the manual-legend
flag. -/
def legendHoverFocusedExpr (st : ChartState) : BExpr :=
  if manualLegendProp st = false then oldLegendFocusedExpr st
  else
    .band (legendIsActiveExpr st)
      (.atom "datum.group_idx == legend_hover.group_idx")

/-- `ChartSpec._in_focus`. -/
def inFocusExpr (st : ChartState) : BExpr :=
  .bor (clickFocusedExpr st) (legendHoverFocusedExpr st)

/-- `ChartSpec._someone_has_focus`. -/
def someoneHasFocusExpr (st : ChartState) : BExpr :=
  .bor (clickIsActiveExpr st) (legendIsActiveExpr st)

/-- `ChartSpec._in_focus_or_none_selected`. -/
def inFocusOrNoneSelectedExpr (st : ChartState) : BExpr :=
  .bor (inFocusExpr st) (.bnot (someoneHasFocusExpr st))

/-- The per-row dataset fields read by
`_make_lockdown_extrapolation_layer`: `x`/`x_start`/`xmax`/`lockdown_x`
are day counts, `y`/`lockdown_y`/`lockdown_slope` are measured values.
Nullable fields are `Option`. -/
structure TrendRow where
  x : Int
  y : Option ℚ
  x_start : Int
  xmax : Int
  lockdown_x : Option Int
  lockdown_y : Option ℚ
  lockdown_slope : Option ℚ
  deriving DecidableEq, Repr

/-- The `transform_calculate` of the extrapolation layer:
`model_y = datum.lockdown_y * pow(datum.lockdown_slope, datum.x -
datum.lockdown_x)`, defined when the lockdown fields are non-null. -/
def modelY (r : TrendRow) : Option ℚ :=
  match r.lockdown_y, r.lockdown_slope, r.lockdown_x with
  | some ly, some s, some lx => some (ly * s ^ (r.x - lx))
  | _, _, _ => none

/-- `self.get('min_trend_line_days', DEFAULT_MIN_TREND_LINE_DAYS)`. -/
def minTrendDays (st : ChartState) : Int :=
  match cget st "min_trend_line_days" with
  | some (.vInt n) => n
  | _ => 5

/-- The optional y-domain clip bound of the extrapolation layer: the
upper bound of `ydomain` when `'ydomain' in self` and
`extrap_clip_to_ydomain` is set, else no clipping. -/
def extrapClip (st : ChartState) : Option ℚ :=
  if ccontains st "ydomain" = true ∧
      truthyD st "extrap_clip_to_ydomain" false = true then
    match cget st "ydomain" with
    | some (.vIntPair _ hi) => some (hi : ℚ)
    | _ => none
  else none

/-- The sequential `transform_filter` chain of
`_make_lockdown_extrapolation_layer`, conjoined in source order: the
trend-display toggle, the four non-null checks, `x >= lockdown_x`,
`lockdown_x > x_start`, the minimum-horizon check, the optional
y-domain clip on `model_y`, and finally the `InFocus` restriction.
`showTrends` and `focused` stand for the renderer-side truth values of
the `_show_trends` and `_in_focus` selection predicates on this row. -/
def extrapRowKept (showTrends : Bool) (minDays : Int) (clip : Option ℚ)
    (focused : Bool) (r : TrendRow) : Bool :=
  showTrends &&
  r.lockdown_x.isSome &&
  r.y.isSome &&
  r.lockdown_y.isSome &&
  r.lockdown_slope.isSome &&
  decide (r.lockdown_x.getD 0 ≤ r.x) &&
  decide (r.x_start < r.lockdown_x.getD 0) &&
  decide (minDays ≤ r.xmax - r.lockdown_x.getD 0) &&
  (match clip, modelY r with
   | some ub, some m => decide (m ≤ ub)
   | _, _ => true) &&
  focused

/-- The zero-width-joiner code point `U+200D`. -/
def zwjChar : Char := Char.ofNat 0x200D

/-- The variation-selector-16 code point `U+FE0F` (the second literal
in the tuple `(u'‍', '️')` of `_emoji_gen`). -/
def vs16Char : Char := Char.ofNat 0xFE0F

/-- Whether a code point extends the current emoji token
(`c in (u'‍', '️')`). -/
def isEmojiSep (c : Char) : Bool :=
  c == zwjChar || c == vs16Char

/-- The loop body of `_emoji_gen`: `cur` is the token being grown,
`sawSep` records whether the previous code point was a
joiner/selector. -/
def emojiGenAux (cur : String) (sawSep : Bool) : List Char → List String
  | [] => [cur]
  | c :: rest =>
      if sawSep = false ∧ isEmojiSep c = false then
        cur :: emojiGenAux (String.singleton c) (isEmojiSep c) rest
      else
        emojiGenAux (cur.push c) (isEmojiSep c) rest

/-- `_emoji_gen` over the flattened code-point sequence.  On the empty
sequence Python raises `IndexError` before the generator runs; the
caller `collectEmojiLegendLayers` checks that case first. -/
def emojiTokens : List Char → List String
  | [] => []
  | c :: rest => emojiGenAux (String.singleton c) false rest

/-- Lexicographic comparison of code-point sequences, the order Python
`sorted` uses on strings. -/
def charListLe : List Char → List Char → Bool
  | [], _ => true
  | _ :: _, [] => false
  | a :: as, b :: bs =>
      if a.toNat < b.toNat then true
      else if b.toNat < a.toNat then false
      else charListLe as bs

/-- String comparison by code points. -/
def strLe (a b : String) : Bool :=
  charListLe a.toList b.toList

/-- Insertion step for `sortStr`. -/
def insertSorted (x : String) : List String → List String
  | [] => [x]
  | y :: rest => if strLe x y then x :: y :: rest else y :: insertSorted x rest

/-- Python `sorted` on strings (lexicographic by code point). -/
def sortStr : List String → List String
  | [] => []
  | x :: rest => insertSorted x (sortStr rest)

/-- `df['emoji'].dropna()` as strings. -/
def dropnaStrs (col : List DVal) : List String :=
  col.filterMap (fun v => match v with | .null => none | v => some (asKey v))

/-- `list(df['emoji'].dropna().unique())`: the distinct emoji strings
of the column in encounter order — the list `_collect_emoji_legend_layers`
flattens into code points.  The string-level dedup matters: the token
scan merges across string boundaries when a string ends with a
joiner/selector, so duplicated strings would change the token count. -/
def emojiColumnStrs (col : List DVal) : List String :=
  uniqueFirst (dropnaStrs col)

/-- `sorted(set(_emoji_gen()) - {'🚫'})`: the distinct emoji tokens of
the given string list (the deduplicated column strings), with the
"none" glyph dropped, sorted. -/
def emojiLegendTokens (strs : List String) : List String :=
  sortStr ((uniqueFirst (emojiTokens (strs.flatMap String.toList))).filter
    (fun t => t ≠ "🚫"))

/-- The token-to-description lookup table written literally inside the
`emoji_and_description` calculate expression of
`_collect_emoji_legend_layers`, in source order. -/
def emojiDescTable : List (String × String) :=
  [("👨‍👩‍👧‍👦", "Gatherings banned"),
   ("🏠", "Stay-at-home order"),
   ("🍔", "Restaurant closures"),
   ("🏬", "Business closures"),
   ("⚠️", "Emergency declaration"),
   ("🎓", "School closures"),
   ("🛩", "Travel restrictions"),
   ("💼", "Visitor/Border restrictions"),
   ("🛃", "Forgot what this meant")]

/-- The object-literal body of the description table as it appears in
the generated expression string. -/
def emojiDescEntries : String :=
  String.join (emojiDescTable.map
    (fun p => "\x22" ++ p.1 ++ "\x22: \x22" ++ p.2 ++ "\x22, "))

/-- The full `emoji_and_description` calculate expression: the table
is embedded as an object literal indexed by `datum.emoji`; no lookup
happens while the chart is compiled. -/
def emojiCalcExpr : String :=
  "datum.emoji + \x22 \x22 + \x7b" ++ emojiDescEntries ++ "\x7d[datum.emoji]"

/-- The renderer-side description lookup the embedded object literal
denotes: `none` models the `undefined` an unmapped token produces. -/
def emojiDescriptionAt (tok : String) : Option String :=
  lookupC emojiDescTable tok

/-- A named output layer: its key in the `layers` dict of `compile`,
whether its color channel is bound to the grouping field (as opposed to
a constant or no color at all), and the selections attached to it. -/
structure Layer where
  name : String
  hasColor : Bool
  selections : List String
  deriving DecidableEq, Repr

/-- `ChartSpec._collect_emoji_legend_layers(df, layers)`: flatten the
distinct emoji strings (`df['emoji'].dropna().unique()`) into code
points (`IndexError` on an empty sequence), segment and dedupe the
tokens, enforce the 7-token ceiling, then build the text-marks layer —
whose x-offset calculate expression interpolates `self.xdomain[1]` —
and the separator rule layer whose y position comes from the
`{1: '2', 2: '4', 3: '7'}` row-count lookup. -/
def collectEmojiLegendLayers (st : ChartState) (df : DataFrame) :
    Except String (List Layer) :=
  match getCol df "emoji" with
  | .error e => .error e
  | .ok col =>
    match (emojiColumnStrs col).flatMap String.toList with
    | [] => .error "IndexError: list index out of range"
    | _ :: _ =>
      if 7 < (emojiLegendTokens (emojiColumnStrs col)).length then
        .error "max 7 supported for now"
      else
        match attrVal st "xdomain" with
        | .error e => .error e
        | .ok (.vIntPair _ _) =>
            match ((emojiLegendTokens (emojiColumnStrs col)).length + 1 + 2) / 3 with
            | 1 => .ok [⟨"marks", false, []⟩, ⟨"emoji_legend_sep", false, []⟩]
            | 2 => .ok [⟨"marks", false, []⟩, ⟨"emoji_legend_sep", false, []⟩]
            | 3 => .ok [⟨"marks", false, []⟩, ⟨"emoji_legend_sep", false, []⟩]
            | _ => .error "KeyError: num_emoji_rows"
        | .ok _ => .error "TypeError: xdomain is not subscriptable"

/-- One synthetic row of the manual-legend side dataset `leg_df`. -/
structure LegendRow where
  idx : Int
  group_idx : DVal
  label : String
  x : Int
  row_type : String
  deriving DecidableEq, Repr

/-- `self.get('readable_group_name', default)` as a string. -/
def readableGroupNameD (st : ChartState) (d : String) : String :=
  match cget st "readable_group_name" with
  | some v => strOf v
  | none => d

/-- The `leg_df` construction of `ChartSpec._make_manual_legend`:
given the per-group rows of `df.groupby(colorby).first()` sorted by
group name, enforce the `MAX_LEGEND_MARKS = 33` ceiling, then lay out
one normal row per group with index `34 - position` (i.e.
`MAX_LEGEND_MARKS + 1 - arange`) followed by one title row at index
35. -/
def makeManualLegendRows (st : ChartState) (groups : List (String × DVal)) :
    Except String (List LegendRow) :=
  if 33 < groups.length then
    .error ("max 33 supported for now (" ++ toString groups.length ++
      " requested)")
  else
    .ok ((groups.enum.map
        (fun p => ⟨34 - (p.1 : Int), p.2.2, p.2.1, 0, "normal"⟩)) ++
      [⟨35, .i (-1), "Select " ++ readableGroupNameD st "line", 0, "title"⟩])

/-- Keep the first (name, group_idx) pair for each distinct name, in
encounter order (`groupby(...).first()`). -/
def uniquePairsAux (seen : List String) :
    List (String × DVal) → List (String × DVal)
  | [] => []
  | (n, g) :: rest =>
      if n ∈ seen then uniquePairsAux seen rest
      else (n, g) :: uniquePairsAux (n :: seen) rest

/-- Insertion step for `sortPairs`. -/
def insertSortedPair (x : String × DVal) :
    List (String × DVal) → List (String × DVal)
  | [] => [x]
  | y :: rest =>
      if strLe x.1 y.1 then x :: y :: rest else y :: insertSortedPair x rest

/-- Sort (name, group_idx) pairs by name
(`sort_values(colorby, ascending=True)`). -/
def sortPairs : List (String × DVal) → List (String × DVal)
  | [] => []
  | x :: rest => insertSortedPair x (sortPairs rest)

/-- `df.groupby(colorby).first().reset_index().sort_values(colorby)`
restricted to the two columns the legend reads: pair each row's group
name with its `group_idx`, keep the first row per group, sort by
name. -/
def groupFirst (names : List String) (gidx : List DVal) :
    List (String × DVal) :=
  sortPairs (uniquePairsAux [] (names.zip gidx))

/-- The error behavior of `_make_manual_legend(df, click_selection)`:
`self.colorby` attribute access, the grouping-column read, the 33-group
ceiling check on the distinct group names (line 534, raised before
`groups['group_idx']` is read at line 544), then the `group_idx` read
and the `leg_df` construction, discarding the built chart. -/
def manualLegendCheck (st : ChartState) (df : DataFrame) :
    Except String Unit :=
  match attrVal st "colorby" with
  | .error e => .error e
  | .ok cN =>
    match getCol df (strOf cN) with
    | .error e => .error e
    | .ok colv =>
      if 33 < (uniqueFirst (colv.map asKey)).length then
        .error ("max 33 supported for now (" ++
          toString (uniqueFirst (colv.map asKey)).length ++ " requested)")
      else
        match getCol df "group_idx" with
        | .error e => .error e
        | .ok gidx =>
          match makeManualLegendRows st (groupFirst (colv.map asKey) gidx) with
          | .error e => .error e
          | .ok _ => .ok ()

/-- The tooltip layers inserted by `_collect_tooltip_layers` that are
gated on the lockdown flags: rules, icons (split by the `Coverage`
column), and the hover/checkbox tooltip pair. -/
def lockdownTooltipGroup (st : ChartState) (df : DataFrame) : List Layer :=
  (if truthyD st "lockdown_rules" false then
      [⟨"lockdown_rules", true, []⟩]
    else []) ++
  (if truthyD st "lockdown_icons" false then
      (if "Coverage" ∈ df.columns then
        [⟨"statewide_lockdown_icons", false, []⟩,
         ⟨"regional_lockdown_icons", false, []⟩]
      else [⟨"lockdown_icons", false, []⟩])
    else []) ++
  (if truthyD st "lockdown_rules" false || truthyD st "lockdown_icons" false
      || truthyD st "lockdown_tooltips" false then
      ⟨"hover_layer", false,
        (if truthyD st "event_select" false then ["events"] else []) ++
        (if "Coverage" ∈ df.columns then ["hide_regional_icons"] else [])⟩ ::
      (if truthyD st "event_select" false then
          [⟨"event_checkbox_layer", false, []⟩]
        else [])
    else [])

/-- `ChartSpec._collect_tooltip_layers`: nothing unless
`has_tooltips`; then the flag-gated tooltip point/text/rule layers
followed by the lockdown group. -/
def tooltipLayers (st : ChartState) (df : DataFrame) : List Layer :=
  if truthyD st "has_tooltips" false = false then []
  else
    (if truthyD st "tooltip_points" false then
        [⟨"tooltip_points", true, []⟩]
      else []) ++
    (if truthyD st "tooltip_text" false then
        [⟨"tooltip_text", false, []⟩]
      else []) ++
    (if truthyD st "tooltip_rules" false then
        [⟨"tooltip_rules", false, []⟩]
      else []) ++
    lockdownTooltipGroup st df

/-- The optional extrapolation pair of `compile`. -/
def extrapLayerGroup (st : ChartState) : List Layer :=
  if truthyD st "lockdown_extrapolation" false then
    [⟨"model_lines", true, []⟩, ⟨"model_tooltip", false, ["trends"]⟩]
  else []

/-- The layer insertions of `compile` up to (and excluding) the emoji
legend, in source order: the fake interactive layer; in native-legend
mode the invisible legend layer (color channel, legend selection)
followed by the cursor selector; the fake click-target points; in
manual mode the cursor selector (built from a point layer, hence with
a color channel); then the content line and point layers, the tooltip
layers, and the extrapolation layers. -/
def corePre (st : ChartState) (df : DataFrame) : List Layer :=
  ⟨"fake_interactive", false, []⟩ ::
  ((if manualLegendProp st = false then
      [⟨"legend", true, ["legend"]⟩, ⟨"selectors", false, ["cursor"]⟩]
    else []) ++
   (⟨"fake_points", true, ["click"]⟩ ::
    ((if manualLegendProp st then [⟨"selectors", true, ["cursor"]⟩] else []) ++
     (⟨"lines", true, []⟩ :: ⟨"points", true, []⟩ ::
      (tooltipLayers st df ++ extrapLayerGroup st)))))

/-- The full ordered layer sequence of `compile`: the core layers plus
the emoji legend layers when `emoji_legend` is set. -/
def layerSeq (st : ChartState) (df : DataFrame) :
    Except String (List Layer) :=
  if truthyD st "emoji_legend" false then
    match collectEmojiLegendLayers st df with
    | .ok el => .ok (corePre st df ++ el)
    | .error e => .error e
  else .ok (corePre st df)

/-- The dropdown construction for the native-legend click selection:
when click selection is on, `compile` reads
`df[self._detailby].unique()` for the options, raising `KeyError` when
the detail column is absent. -/
def dropdownCheck (st : ChartState) (df : DataFrame) :
    Except String Unit :=
  if manualLegendProp st = false then
    if truthyD st "click_selection" false then
      match detailbyProp st with
      | some v =>
          match getCol df (strOf v) with
          | .ok _ => .ok ()
          | .error e => .error e
      | none => .error "KeyError: None"
    else .ok ()
  else .ok ()

/-- `ChartSpec.compile(df)`, observed through its error behavior and
the ordered layer sequence handed to `alt.layer`: validate, create and
populate the transient overlay, build the click-selection dropdown,
assemble the layers (including the emoji legend), and in manual mode
build the side legend.  The post-layer composition steps (facet,
interactive binding, title, cosmetic configure calls, theme
registration) neither fail nor reorder layers and are not modelled. -/
def compile (st : ChartState) (df : DataFrame) :
    Except String (List Layer) :=
  match validate st df with
  | .error e => .error e
  | .ok _ =>
    match populateTransientProps (populateBegin st) df with
    | .error e => .error e
    | .ok st2 =>
      match dropdownCheck st2 df with
      | .error e => .error e
      | .ok _ =>
        match layerSeq st2 df with
        | .error e => .error e
        | .ok layers =>
          if manualLegendProp st2 then
            match manualLegendCheck st2 df with
            | .error e => .error e
            | .ok _ => .ok layers
          else .ok layers

/-! Concrete configurations and dataframes used by witnesses and
counterexamples. -/

/-- A minimal native-legend configuration that passes validation. -/
def stNativeOk : ChartState :=
  ⟨[("lines", .vBool true), ("click_selection", .vBool true),
    ("detailby", .vStr "g"), ("colorby", .vStr "g")], none⟩

/-- A dataframe with the `x`, `y` and grouping columns. -/
def dfNativeOk : DataFrame := ⟨[("x", []), ("y", []), ("g", [])]⟩

/-- The layer sequence `compile stNativeOk dfNativeOk` produces. -/
def nativeOkLayers : List Layer :=
  [⟨"fake_interactive", false, []⟩, ⟨"legend", true, ["legend"]⟩,
   ⟨"selectors", false, ["cursor"]⟩, ⟨"fake_points", true, ["click"]⟩,
   ⟨"lines", true, []⟩, ⟨"points", true, []⟩]

/-- A valid emoji-legend configuration with an `xdomain`. -/
def stEmojiOk : ChartState :=
  ⟨[("lines", .vBool true), ("click_selection", .vBool true),
    ("detailby", .vStr "g"), ("colorby", .vStr "g"),
    ("emoji_legend", .vBool true), ("xdomain", .vIntPair 0 100)], none⟩

/-- A dataframe whose emoji column holds one glyph, `🦠`, that has no
entry in the description table. -/
def dfEmojiUnmapped : DataFrame :=
  ⟨[("x", []), ("y", []), ("g", []), ("emoji", [DVal.s "🦠"])]⟩

/-- A valid emoji-legend configuration without an `xdomain` key. -/
def stEmojiNoXdomain : ChartState :=
  ⟨[("lines", .vBool true), ("click_selection", .vBool true),
    ("detailby", .vStr "g"), ("colorby", .vStr "g"),
    ("emoji_legend", .vBool true)], none⟩

/-- A dataframe whose emoji column yields 8 distinct tokens, one more
than the emoji-legend ceiling. -/
def dfEmojiEight : DataFrame :=
  ⟨[("x", []), ("y", []), ("g", []),
    ("emoji", [DVal.s "🏠", DVal.s "🎓", DVal.s "🍔", DVal.s "🏬",
               DVal.s "🛩", DVal.s "💼", DVal.s "🛃", DVal.s "⚠"])]⟩

/-- A dataframe whose emoji column holds a single mapped glyph. -/
def dfEmojiOne : DataFrame :=
  ⟨[("x", []), ("y", []), ("g", []), ("emoji", [DVal.s "🏠"])]⟩

/-- A dataframe whose emoji column repeats the selector-terminated
string `"⚠️"`: `unique()` keeps 8 distinct strings whose flattened
scan merges `"⚠️"` with the following glyph, leaving 7 tokens — the
string-level dedup of line 609 is what keeps this within the
ceiling. -/
def dfEmojiDup : DataFrame :=
  ⟨[("x", []), ("y", []), ("g", []),
    ("emoji", [DVal.s "⚠️", DVal.s "🏠", DVal.s "🎓", DVal.s "🍔",
               DVal.s "🏬", DVal.s "🛩", DVal.s "💼", DVal.s "🛃",
               DVal.s "⚠️"])]⟩

/-- A state whose transient overlay sets `font` while the base
configuration leaves it unset. -/
def stFontOverlay : ChartState := ⟨[], some [("font", .vStr "Arial")]⟩

/-- A configuration with neither `lines` nor `points`, used to trigger
the first validation error. -/
def stNoMarks : ChartState :=
  ⟨[("detailby", .vStr "g"), ("colorby", .vStr "g")], none⟩

/-- A configuration carrying an (empty) user colormap, used to observe
the transient overlay write of the color assigner. -/
def stColormapOk : ChartState :=
  ⟨[("colorby", .vStr "g"), ("colormap", .vColormap [])], some []⟩

/-- 34 distinct legend groups (one more than the ceiling). -/
def groups34 : List (String × DVal) :=
  (List.range 34).map (fun i => ("g" ++ toString i, DVal.i i))

/-- Exactly 33 distinct legend groups. -/
def groups33 : List (String × DVal) :=
  (List.range 33).map (fun i => ("g" ++ toString i, DVal.i i))

/-! Theorems. -/

/-- C5: emoji segmentation scans the concatenated code-point sequence;
a zero-width-joiner or variation-selector code point extends the
current token, and any other code point starts a new token unless the
previous code point was a joiner/selector; in particular
`"🏠🎓👨‍👩‍👧‍👦"` segments into exactly 3 tokens, the third keeping all
joiner-linked code points together. -/
theorem c5_emoji_segmentation :
    emojiTokens ("🏠🎓👨‍👩‍👧‍👦".toList) = ["🏠", "🎓", "👨‍👩‍👧‍👦"] ∧
    (emojiTokens ("🏠🎓👨‍👩‍👧‍👦".toList)).length = 3 ∧
    (∀ cur c rest, isEmojiSep c = true →
      emojiGenAux cur false (c :: rest) =
        emojiGenAux (cur.push c) true rest) ∧
    (∀ cur sawSep c rest, sawSep = true →
      emojiGenAux cur sawSep (c :: rest) =
        emojiGenAux (cur.push c) (isEmojiSep c) rest) ∧
    (∀ cur c rest, isEmojiSep c = false →
      emojiGenAux cur false (c :: rest) =
        cur :: emojiGenAux (String.singleton c) false rest) := by
  refine ⟨by decide, by decide, ?_, ?_, ?_⟩
  · intro cur c rest h
    simp [emojiGenAux, h]
  · intro cur sawSep c rest h
    simp [emojiGenAux, h]
  · intro cur c rest h
    simp [emojiGenAux, h]

theorem c5_emoji_segmentation_witness :
    emojiGenAux "a" false (zwjChar :: []) =
      emojiGenAux ("a".push zwjChar) true [] ∧
    emojiGenAux "a" true ('b' :: []) =
      emojiGenAux ("a".push 'b') (isEmojiSep 'b') [] ∧
    emojiGenAux "a" false ('b' :: []) =
      "a" :: emojiGenAux (String.singleton 'b') false [] :=
  ⟨c5_emoji_segmentation.2.2.1 "a" zwjChar [] (by decide),
   c5_emoji_segmentation.2.2.2.1 "a" true 'b' [] rfl,
   c5_emoji_segmentation.2.2.2.2 "a" 'b' [] (by decide)⟩

/-- C6: the `InFocusOrNoneSelected` expression is literally
`InFocus || !SomeoneHasFocus`, and it evaluates to `true` for every
datum in every selection state in which the click selection is not
active and the legend selection is not active, regardless of the
datum's content (the atom environment is arbitrary). -/
theorem c6_in_focus_or_none_selected :
    (∀ st, inFocusOrNoneSelectedExpr st =
      .bor (inFocusExpr st) (.bnot (someoneHasFocusExpr st))) ∧
    (∀ st env, evalB env (clickIsActiveExpr st) = false →
      evalB env (legendIsActiveExpr st) = false →
      evalB env (inFocusOrNoneSelectedExpr st) = true) := by
  refine ⟨fun st => rfl, ?_⟩
  intro st env h1 h2
  have hsome : evalB env (someoneHasFocusExpr st) =
      (evalB env (clickIsActiveExpr st) || evalB env (legendIsActiveExpr st)) :=
    rfl
  have hs : evalB env (someoneHasFocusExpr st) = false := by
    rw [hsome, h1, h2, Bool.or_self]
  have hfull : evalB env (inFocusOrNoneSelectedExpr st) =
      (evalB env (inFocusExpr st) || !(evalB env (someoneHasFocusExpr st))) :=
    rfl
  rw [hfull, hs, Bool.not_false, Bool.or_true]

theorem c6_in_focus_or_none_selected_witness :
    evalB (fun _ => false) (inFocusOrNoneSelectedExpr ⟨[], none⟩) = true :=
  c6_in_focus_or_none_selected.2 ⟨[], none⟩ (fun _ => false) rfl rfl

/-- C8 counterexample: `_font` is a plain base lookup, so with `font`
present only in the transient overlay the property returns the default
`'Khula'`, not the overlay value `'Arial'`, refuting the claim that
every listed derived property goes through the overlay-aware lookup. -/
theorem c8_overlay_counterexample :
    fontProp stFontOverlay = CVal.vStr "Khula" ∧
    preferTransient stFontOverlay "font" none = some (CVal.vStr "Arial") ∧
    CVal.vStr "Khula" ≠ CVal.vStr "Arial" := by
  refine ⟨rfl, rfl, by decide⟩

/-- C8 (amended): `_prefer_transient` returns the overlay value if
present, else the base value, else the default; `_colorby`,
`_detailby` and `_colormap` are computed through it; but `_font`,
`_height`, `_width` and the manual-legend flag read the base
configuration only, so transient overlay entries for those keys do not
affect them (and no lookup mutates the base configuration). -/
theorem c8_overlay_lookups :
    (∀ st k d t v, st.transient = some t → lookupC t k = some v →
      preferTransient st k d = some v) ∧
    (∀ st k d t, st.transient = some t → lookupC t k = none →
      preferTransient st k d = (cget st k).orElse (fun _ => d)) ∧
    (∀ st k d, st.transient = none →
      preferTransient st k d = (cget st k).orElse (fun _ => d)) ∧
    (∀ st, colorbyProp st = preferTransient st "colorby" none) ∧
    (∀ st, detailbyProp st = preferTransient st "detailby" none) ∧
    (∀ st, colormapProp st = preferTransient st "colormap" none) ∧
    (∀ b t t', fontProp ⟨b, t⟩ = fontProp ⟨b, t'⟩) ∧
    (∀ b t t', heightProp ⟨b, t⟩ = heightProp ⟨b, t'⟩) ∧
    (∀ b t t', widthProp ⟨b, t⟩ = widthProp ⟨b, t'⟩) ∧
    (∀ b t t', manualLegendProp ⟨b, t⟩ = manualLegendProp ⟨b, t'⟩) := by
  refine ⟨?_, ?_, ?_, fun st => rfl, fun st => rfl, fun st => rfl,
    fun b t t' => rfl, fun b t t' => rfl, fun b t t' => rfl,
    fun b t t' => rfl⟩
  · intro st k d t v ht hv
    simp [preferTransient, ht, hv, Option.orElse]
  · intro st k d t ht hv
    simp [preferTransient, ht, hv, Option.orElse]
  · intro st k d ht
    simp [preferTransient, ht]

theorem c8_overlay_lookups_witness :
    preferTransient ⟨[], some [("colorby", CVal.vStr "t")]⟩ "colorby" none =
      some (CVal.vStr "t") ∧
    preferTransient ⟨[("colorby", CVal.vStr "b")], some []⟩ "colorby" none =
      (cget ⟨[("colorby", CVal.vStr "b")], some []⟩ "colorby").orElse
        (fun _ => none) ∧
    preferTransient ⟨[("colorby", CVal.vStr "b")], none⟩ "colorby" none =
      (cget ⟨[("colorby", CVal.vStr "b")], none⟩ "colorby").orElse
        (fun _ => none) :=
  ⟨c8_overlay_lookups.1 _ "colorby" none _ _ rfl rfl,
   c8_overlay_lookups.2.1 _ "colorby" none _ rfl rfl,
   c8_overlay_lookups.2.2.1 _ "colorby" none rfl⟩

/-- C4: the extrapolation layer computes
`model_y = lockdown_y * lockdown_slope ^ (x - lockdown_x)` (at
`lockdown_x=10, lockdown_y=100, lockdown_slope=1.1, x=15` this is
`161.051`), and a row contributes exactly when the trend toggle is on,
the row is in focus, `lockdown_x`/`y`/`lockdown_y`/`lockdown_slope`
are non-null, `x ≥ lockdown_x`, `lockdown_x > x_start`,
`xmax - lockdown_x` is at least the configured minimum (default 5),
and any configured y-domain clip bounds `model_y`; a row with
`xmax - lockdown_x < 5` is excluded under the default minimum. -/
theorem c4_extrapolation_model :
    (∀ (x xs xm : Int) (yv : Option ℚ) (lx : Int) (ly s : ℚ),
      modelY ⟨x, yv, xs, xm, some lx, some ly, some s⟩ =
        some (ly * s ^ (x - lx))) ∧
    modelY ⟨15, some 1, 0, 100, some 10, some 100, some (11/10)⟩ =
      some (161051/1000 : ℚ) ∧
    (∀ t minD clip f r, extrapRowKept t minD clip f r = true ↔
      (t = true ∧ f = true ∧
        ∃ lx yv ly s, r.lockdown_x = some lx ∧ r.y = some yv ∧
          r.lockdown_y = some ly ∧ r.lockdown_slope = some s ∧
          lx ≤ r.x ∧ r.x_start < lx ∧ minD ≤ r.xmax - lx ∧
          ∀ ub, clip = some ub → ly * s ^ (r.x - lx) ≤ ub)) ∧
    (∀ t clip f r lx, r.lockdown_x = some lx → r.xmax - lx < 5 →
      extrapRowKept t 5 clip f r = false) ∧
    (∀ t minD clip r, extrapRowKept t minD clip false r = false) ∧
    (∀ st, cget st "min_trend_line_days" = none → minTrendDays st = 5) := by
  refine ⟨fun x xs xm yv lx ly s => rfl, ?_, ?_, ?_, ?_, ?_⟩
  · show some ((100 : ℚ) * (11/10 : ℚ) ^ ((15 : ℤ) - 10)) = _
    norm_num
  · intro t minD clip f r
    rcases r with ⟨x, yv, xs, xm, olx, oly, os⟩
    cases olx <;> cases yv <;> cases oly <;> cases os <;> cases clip <;>
      simp [extrapRowKept, modelY, Bool.and_eq_true, decide_eq_true_eq] <;>
      tauto
  · intro t clip f r lx hlx h5
    have hd : decide ((5 : ℤ) ≤ r.xmax - lx) = false := by
      simp only [decide_eq_false_iff_not]
      omega
    simp [extrapRowKept, hlx, hd]
  · intro t minD clip r
    simp [extrapRowKept]
  · intro st h
    simp [minTrendDays, h]

theorem c4_extrapolation_model_witness :
    extrapRowKept true 5 (some 1000) true
      ⟨15, some 1, 0, 100, some 10, some 100, some (11/10)⟩ = true ∧
    extrapRowKept true 5 none true
      ⟨15, some 1, 0, 12, some 10, some 100, some (11/10)⟩ = false ∧
    extrapRowKept true 7 (some 1000) false
      ⟨15, some 1, 0, 100, some 10, some 100, some (11/10)⟩ = false ∧
    minTrendDays ⟨[], none⟩ = 5 :=
  ⟨(c4_extrapolation_model.2.2.1 true 5 (some 1000) true
      ⟨15, some 1, 0, 100, some 10, some 100, some (11/10)⟩).mpr
    ⟨rfl, rfl, 10, 1, 100, 11/10, rfl, rfl, rfl, rfl, by decide, by decide,
      by decide, fun ub hub => by cases hub; norm_num⟩,
   c4_extrapolation_model.2.2.2.1 true none true
     ⟨15, some 1, 0, 12, some 10, some 100, some (11/10)⟩ 10 rfl (by decide),
   c4_extrapolation_model.2.2.2.2.1 true 7 (some 1000)
     ⟨15, some 1, 0, 100, some 10, some 100, some (11/10)⟩,
   c4_extrapolation_model.2.2.2.2.2 ⟨[], none⟩ rfl⟩

/-- C7: exceeding a legend group-count ceiling raises a capacity error
during legend construction: the manual legend errors beyond 33 groups
(34 errors), exactly 33 succeeds with 33 normal rows plus one title
row whose normal indices descend strictly by 1 from 34 down to 2; the
emoji legend errors when more than 7 tokens remain after segmenting
the deduplicated column strings and dropping the `🚫` glyph, and a
column kept within the ceiling only by the string-level dedup (a
repeated `"⚠️"`) succeeds. -/
theorem c7_legend_capacity :
    (∀ st groups, 33 < groups.length →
      ∃ e, makeManualLegendRows st groups = .error e) ∧
    makeManualLegendRows ⟨[], none⟩ groups34 =
      .error "max 33 supported for now (34 requested)" ∧
    (∃ rows, makeManualLegendRows ⟨[], none⟩ groups33 = .ok rows ∧
      (rows.filter (fun r => r.row_type == "normal")).length = 33 ∧
      (rows.filter (fun r => r.row_type == "title")).length = 1 ∧
      ((rows.filter (fun r => r.row_type == "normal")).map
        (fun r => r.idx)).head? = some 34 ∧
      ((rows.filter (fun r => r.row_type == "normal")).map
        (fun r => r.idx)).getLast? = some 2 ∧
      (rows.filter (fun r => r.row_type == "normal")).map (fun r => r.idx) =
        (List.range 33).map (fun i => (34 : Int) - i)) ∧
    (∀ st df col c cs, getCol df "emoji" = .ok col →
      (emojiColumnStrs col).flatMap String.toList = c :: cs →
      7 < (emojiLegendTokens (emojiColumnStrs col)).length →
      collectEmojiLegendLayers st df = .error "max 7 supported for now") ∧
    (emojiLegendTokens (emojiColumnStrs
      [DVal.s "⚠️", DVal.s "🏠", DVal.s "🎓", DVal.s "🍔", DVal.s "🏬",
       DVal.s "🛩", DVal.s "💼", DVal.s "🛃", DVal.s "⚠️"])).length = 7 ∧
    collectEmojiLegendLayers stEmojiOk dfEmojiDup =
      .ok [⟨"marks", false, []⟩, ⟨"emoji_legend_sep", false, []⟩] := by
  refine ⟨?_, rfl, ?_, ?_, by decide, rfl⟩
  · intro st groups h
    exact ⟨"max 33 supported for now (" ++ toString groups.length ++
      " requested)", by simp [makeManualLegendRows, h]⟩
  · exact ⟨_, rfl, by decide, by decide, by decide, by decide, by decide⟩
  · intro st df col c cs h1 h2 h3
    simp only [collectEmojiLegendLayers, h1]
    rw [h2]
    simp only [if_pos h3]

theorem c7_legend_capacity_witness :
    (∃ e, makeManualLegendRows ⟨[], none⟩ groups34 = .error e) ∧
    collectEmojiLegendLayers stEmojiNoXdomain dfEmojiEight =
      .error "max 7 supported for now" := by
  refine ⟨c7_legend_capacity.1 ⟨[], none⟩ groups34 (by decide), ?_⟩
  exact c7_legend_capacity.2.2.2.1 stEmojiNoXdomain dfEmojiEight _ _ _
    rfl rfl (by decide)

theorem lookupC_eq_none_of_not_containsKey {α : Type}
    (m : List (String × α)) (k : String) (h : containsKey m k = false) :
    lookupC m k = none := by
  induction m with
  | nil => rfl
  | cons p rest ih =>
    obtain ⟨k', v⟩ := p
    by_cases hk : k' = k
    · simp [containsKey, hk] at h
    · simp only [containsKey, if_neg hk] at h
      simp [lookupC, hk, ih h]

/-- C9 counterexample: compiling a configuration whose emoji column
holds the glyph `🦠`, which has no entry in the description table,
succeeds and emits the emoji legend layers — no lookup error is raised
at compile time, refuting the claim. -/
theorem c9_unmapped_token_counterexample :
    compile stEmojiOk dfEmojiUnmapped =
      .ok [⟨"fake_interactive", false, []⟩, ⟨"legend", true, ["legend"]⟩,
        ⟨"selectors", false, ["cursor"]⟩, ⟨"fake_points", true, ["click"]⟩,
        ⟨"lines", true, []⟩, ⟨"points", true, []⟩,
        ⟨"marks", false, []⟩, ⟨"emoji_legend_sep", false, []⟩] ∧
    containsKey emojiDescTable "🦠" = false ∧
    emojiLegendTokens ["🦠"] = ["🦠"] :=
  ⟨rfl, by decide, rfl⟩

/-- C9 (amended): the token-to-description table is embedded as an
object literal inside the generated calculate expression, so emoji
legend construction succeeds for any token multiset within capacity
whether or not tokens are mapped; an unmapped token only denotes a
missing description (`undefined`) when the embedded lookup is
evaluated at render time. -/
theorem c9_unmapped_token_render_only :
    (∀ st df col c cs lo hi, getCol df "emoji" = .ok col →
      (emojiColumnStrs col).flatMap String.toList = c :: cs →
      (emojiLegendTokens (emojiColumnStrs col)).length ≤ 7 →
      cget st "xdomain" = some (.vIntPair lo hi) →
      collectEmojiLegendLayers st df =
        .ok [⟨"marks", false, []⟩, ⟨"emoji_legend_sep", false, []⟩]) ∧
    (∀ tok, containsKey emojiDescTable tok = false →
      emojiDescriptionAt tok = none) := by
  constructor
  · intro st df col c cs lo hi h1 h2 h3 hx
    simp only [collectEmojiLegendLayers, h1]
    rw [h2]
    have h7 : ¬ 7 < (emojiLegendTokens (emojiColumnStrs col)).length := by omega
    simp only [if_neg h7, attrVal, hx]
    have hdiv : ((emojiLegendTokens (emojiColumnStrs col)).length + 1 + 2) / 3 = 1 ∨
        ((emojiLegendTokens (emojiColumnStrs col)).length + 1 + 2) / 3 = 2 ∨
        ((emojiLegendTokens (emojiColumnStrs col)).length + 1 + 2) / 3 = 3 := by
      omega
    rcases hdiv with h | h | h <;> rw [h]
  · intro tok h
    exact lookupC_eq_none_of_not_containsKey emojiDescTable tok h

theorem c9_unmapped_token_render_only_witness :
    collectEmojiLegendLayers stEmojiOk dfEmojiUnmapped =
      .ok [⟨"marks", false, []⟩, ⟨"emoji_legend_sep", false, []⟩] ∧
    emojiDescriptionAt "🦠" = none :=
  ⟨c9_unmapped_token_render_only.1 stEmojiOk dfEmojiUnmapped
      [DVal.s "🦠"] _ _ 0 100 rfl rfl (by decide) rfl,
   c9_unmapped_token_render_only.2 "🦠" (by decide)⟩

/-- C10 counterexample: a validation-passing configuration with
`emoji_legend` enabled and no `xdomain` key whose emoji column yields
8 tokens fails with the capacity error, not with a key-lookup error,
refuting the claim that every such configuration fails with a
key-lookup error during emoji legend construction. -/
theorem c10_xdomain_counterexample :
    compile stEmojiNoXdomain dfEmojiEight =
      .error "max 7 supported for now" ∧
    truthyD stEmojiNoXdomain "emoji_legend" false = true ∧
    cget stEmojiNoXdomain "xdomain" = none ∧
    "max 7 supported for now" ≠ "KeyError: xdomain" :=
  ⟨rfl, rfl, rfl, by decide⟩

/-- C10 (amended): building the emoji legend reads `self.xdomain[1]`
for the per-column pixel x-offset, so a present `xdomain` key is a
precondition: for every configuration that passes validation, reaches
emoji legend construction with a nonempty emoji code-point sequence
and at most 7 tokens, and lacks an `xdomain` key, `compile` fails with
a key-lookup error on `xdomain`. -/
theorem c10_xdomain_precondition (st st2 : ChartState) (df : DataFrame)
    (col : List DVal) (c : Char) (cs : List Char)
    (hv : validate st df = .ok ())
    (hp : populateTransientProps (populateBegin st) df = .ok st2)
    (hd : dropdownCheck st2 df = .ok ())
    (he : truthyD st2 "emoji_legend" false = true)
    (h1 : getCol df "emoji" = .ok col)
    (h2 : (emojiColumnStrs col).flatMap String.toList = c :: cs)
    (h3 : (emojiLegendTokens (emojiColumnStrs col)).length ≤ 7)
    (hx : cget st2 "xdomain" = none) :
    compile st df = .error "KeyError: xdomain" := by
  have hcol : collectEmojiLegendLayers st2 df = .error "KeyError: xdomain" := by
    simp only [collectEmojiLegendLayers, h1]
    rw [h2]
    have h7 : ¬ 7 < (emojiLegendTokens (emojiColumnStrs col)).length := by omega
    simp [if_neg h7, attrVal, hx]
  simp [compile, hv, hp, hd, layerSeq, he, hcol]

theorem c10_xdomain_precondition_witness :
    compile stEmojiNoXdomain dfEmojiOne = .error "KeyError: xdomain" :=
  c10_xdomain_precondition stEmojiNoXdomain
    (populateBegin stEmojiNoXdomain) dfEmojiOne [DVal.s "🏠"] _ _
    rfl rfl rfl rfl rfl rfl (by decide) rfl

theorem populateTransientColormapState_base (st : ChartState)
    (df : DataFrame) (st' : ChartState)
    (h : populateTransientColormapState st df = .ok st') :
    st'.base = st.base := by
  unfold populateTransientColormapState at h
  repeat' split at h
  all_goals simp at h
  all_goals rw [← h]
  all_goals rfl


theorem populateTransientProps_base (st : ChartState) (df : DataFrame)
    (st2 : ChartState) (h : populateTransientProps st df = .ok st2) :
    st2.base = st.base := by
  unfold populateTransientProps at h
  split at h
  · exact absurd h (by simp)
  · rename_i st' hcm
    have hb := populateTransientColormapState_base st df st' hcm
    split at h
    · injection h with hinj
      rw [← hinj]
      exact hb
    · injection h with hinj
      rw [← hinj]
      exact hb

theorem manualLegendProp_of_base_eq (st' st : ChartState)
    (h : st'.base = st.base) :
    manualLegendProp st' = manualLegendProp st := by
  unfold manualLegendProp truthyD cget
  rw [h]

theorem compile_ok_layerSeq (st : ChartState) (df : DataFrame)
    (L : List Layer) (h : compile st df = .ok L) :
    ∃ st2, populateTransientProps (populateBegin st) df = .ok st2 ∧
      layerSeq st2 df = .ok L := by
  unfold compile at h
  split at h
  · exact absurd h (by simp)
  · split at h
    · exact absurd h (by simp)
    · rename_i st2 hp
      split at h
      · exact absurd h (by simp)
      · split at h
        · exact absurd h (by simp)
        · rename_i layers hl
          split at h
          · split at h
            · exact absurd h (by simp)
            · injection h with hinj
              subst hinj
              exact ⟨st2, hp, hl⟩
          · injection h with hinj
            subst hinj
            exact ⟨st2, hp, hl⟩

theorem layerSeq_ok_shape (st : ChartState) (df : DataFrame)
    (L : List Layer) (h : layerSeq st df = .ok L) :
    ∃ rest, L = corePre st df ++ rest := by
  unfold layerSeq at h
  split at h
  · split at h
    · rename_i el hce
      injection h with hinj
      exact ⟨el, hinj.symm⟩
    · exact absurd h (by simp)
  · injection h with hinj
    exact ⟨[], by rw [← hinj, List.append_nil]⟩

theorem corePre_native_shape (st : ChartState) (df : DataFrame)
    (hm : manualLegendProp st = false) (rest : List Layer) :
    (corePre st df ++ rest).find? (fun l => l.hasColor) =
      some ⟨"legend", true, ["legend"]⟩ ∧
    (corePre st df ++ rest).findIdx (fun l => l.name == "legend") = 1 ∧
    (corePre st df ++ rest).findIdx (fun l => l.name == "lines") = 4 ∧
    (corePre st df ++ rest).findIdx (fun l => l.name == "points") = 5 := by
  have hc : corePre st df ++ rest =
      ⟨"fake_interactive", false, []⟩ :: ⟨"legend", true, ["legend"]⟩ ::
      ⟨"selectors", false, ["cursor"]⟩ :: ⟨"fake_points", true, ["click"]⟩ ::
      ⟨"lines", true, []⟩ :: ⟨"points", true, []⟩ ::
      ((tooltipLayers st df ++ extrapLayerGroup st) ++ rest) := by
    simp [corePre, hm]
  rw [hc]
  exact ⟨rfl, rfl, rfl, rfl⟩

/-- C2: in native-legend mode, for every configuration whose compile
succeeds, the first layer in the emitted sequence that declares a
color encoding is the dedicated invisible zero-size legend point layer
(which carries the legend selection), and it precedes the content line
and point layers. -/
theorem c2_native_legend_layer_order (st : ChartState) (df : DataFrame)
    (L : List Layer) (hm : manualLegendProp st = false)
    (hc : compile st df = .ok L) :
    L.find? (fun l => l.hasColor) = some ⟨"legend", true, ["legend"]⟩ ∧
    L.findIdx (fun l => l.name == "legend") <
      L.findIdx (fun l => l.name == "lines") ∧
    L.findIdx (fun l => l.name == "legend") <
      L.findIdx (fun l => l.name == "points") := by
  obtain ⟨st2, hp, hl⟩ := compile_ok_layerSeq st df L hc
  have hb : st2.base = st.base :=
    populateTransientProps_base (populateBegin st) df st2 hp
  have hm2 : manualLegendProp st2 = false :=
    (manualLegendProp_of_base_eq st2 st hb).trans hm
  obtain ⟨rest, hrest⟩ := layerSeq_ok_shape st2 df L hl
  subst hrest
  obtain ⟨f1, f2, f3, f4⟩ := corePre_native_shape st2 df hm2 rest
  exact ⟨f1, by rw [f2, f3]; omega, by rw [f2, f4]; omega⟩

theorem c2_native_legend_layer_order_witness :
    compile stNativeOk dfNativeOk = .ok nativeOkLayers ∧
    (nativeOkLayers.find? (fun l => l.hasColor) =
      some ⟨"legend", true, ["legend"]⟩ ∧
     nativeOkLayers.findIdx (fun l => l.name == "legend") <
       nativeOkLayers.findIdx (fun l => l.name == "lines") ∧
     nativeOkLayers.findIdx (fun l => l.name == "legend") <
       nativeOkLayers.findIdx (fun l => l.name == "points")) :=
  ⟨rfl,
   c2_native_legend_layer_order stNativeOk dfNativeOk nativeOkLayers rfl rfl⟩

theorem validate_ok_iff (st : ChartState) (df : DataFrame) (dv cv : CVal)
    (hd : cget st "detailby" = some dv) (hc : cget st "colorby" = some cv) :
    validate st df = .ok () ↔
      (¬(ccontains st "lines" = false ∧ ccontains st "points" = false) ∧
       ("x" ∈ df.columns) ∧ ("y" ∈ df.columns) ∧
       ¬(truthyD st "click_selection" false = false ∧
         truthyD st "legend_selection" false = false) ∧
       ¬((cget st "colormap").isSome = true ∧ dv ≠ cv) ∧
       ¬(∃ cm, cget st "colormap" = some cm ∧ isDictVal cm = false) ∧
       ¬(truthyD st "legend_selection" false = true ∧ dv ≠ cv)) := by
  unfold validate validateLegendPart
  simp only [attrVal, hd, hc]
  cases hmv : cget st "colormap" with
  | none =>
    simp only [hmv]
    split_ifs <;> simp_all
  | some cm =>
    simp only [hmv]
    split_ifs <;> simp_all

/-- C3: with the `detailby`/`colorby` keys present (attribute access
on the config dictionary assumes them), `validate(df)` raises a
descriptive validation error if and only if one of the listed
conditions holds — neither `lines` nor `points` key requested, missing
`x` column, missing `y` column, neither click nor legend selection
enabled, a colormap supplied with `detailby ≠ colorby`, a supplied
colormap that is not a dictionary, or legend selection enabled with
`detailby ≠ colorby` — and any validation error aborts `compile`
before any layer is built. -/
theorem c3_validate_characterization (st : ChartState) (df : DataFrame)
    (dv cv : CVal)
    (hd : cget st "detailby" = some dv) (hc : cget st "colorby" = some cv) :
    ((∃ e, validate st df = .error e) ↔
      ((ccontains st "lines" = false ∧ ccontains st "points" = false) ∨
       ¬("x" ∈ df.columns) ∨ ¬("y" ∈ df.columns) ∨
       (truthyD st "click_selection" false = false ∧
         truthyD st "legend_selection" false = false) ∨
       ((cget st "colormap").isSome = true ∧ dv ≠ cv) ∨
       (∃ cm, cget st "colormap" = some cm ∧ isDictVal cm = false) ∨
       (truthyD st "legend_selection" false = true ∧ dv ≠ cv))) ∧
    (∀ e, validate st df = .error e → compile st df = .error e) := by
  constructor
  · have hok := validate_ok_iff st df dv cv hd hc
    have hbin : (∃ e, validate st df = .error e) ↔
        ¬(validate st df = .ok ()) := by
      cases hx : validate st df with
      | ok u => cases u; simp
      | error e => simp
    rw [hbin, hok]
    constructor
    · intro hna
      by_contra hno
      simp only [not_or, not_not] at hno
      exact hna ⟨hno.1, hno.2.1, hno.2.2.1, hno.2.2.2.1, hno.2.2.2.2.1,
        hno.2.2.2.2.2.1, hno.2.2.2.2.2.2⟩
    · intro hdisj hconj
      obtain ⟨c1, c2, c3, c4, c5, c6, c7⟩ := hconj
      rcases hdisj with h | h | h | h | h | h | h
      exacts [c1 h, h c2, h c3, c4 h, c5 h, c6 h, c7 h]
  · intro e he
    unfold compile
    rw [he]

theorem c3_validate_characterization_witness :
    (∃ e, validate stNoMarks dfNativeOk = .error e) ∧
    compile stNoMarks dfNativeOk =
      .error "should have at least one of lines or points" :=
  ⟨(c3_validate_characterization stNoMarks dfNativeOk
      (CVal.vStr "g") (CVal.vStr "g") rfl rfl).1.mpr (Or.inl ⟨rfl, rfl⟩),
   (c3_validate_characterization stNoMarks dfNativeOk
      (CVal.vStr "g") (CVal.vStr "g") rfl rfl).2 _ rfl⟩

theorem findUnusedSplit_not_mem (used pal : List String) (c : String)
    (rest : List String) (h : findUnusedSplit used pal = some (c, rest)) :
    c ∉ used := by
  induction pal generalizing rest with
  | nil => simp [findUnusedSplit] at h
  | cons p ps ih =>
    unfold findUnusedSplit at h
    by_cases hp : p ∈ used
    · rw [if_pos hp] at h
      exact ih rest h
    · rw [if_neg hp] at h
      simp only [Option.some.injEq, Prod.mk.injEq] at h
      obtain ⟨rfl, rfl⟩ := h
      exact hp

theorem containsKey_append {α : Type} (m1 m2 : List (String × α))
    (k : String) :
    containsKey (m1 ++ m2) k = (containsKey m1 k || containsKey m2 k) := by
  induction m1 with
  | nil => simp [containsKey]
  | cons p rest ih =>
    obtain ⟨k', v'⟩ := p
    by_cases hk : k' = k <;> simp [containsKey, hk, ih]

theorem lookupC_append_left {α : Type} (m1 m2 : List (String × α))
    (k : String) (h : containsKey m1 k = true) :
    lookupC (m1 ++ m2) k = lookupC m1 k := by
  induction m1 with
  | nil => simp [containsKey] at h
  | cons p rest ih =>
    obtain ⟨k', v'⟩ := p
    by_cases hk : k' = k
    · simp [lookupC, hk]
    · simp only [containsKey, if_neg hk] at h
      simp [lookupC, hk, ih h]

theorem lookupC_updateC_self {α : Type} (m : List (String × α))
    (k : String) (v : α) : lookupC (updateC m k v) k = some v := by
  induction m with
  | nil => simp [updateC, lookupC]
  | cons p rest ih =>
    obtain ⟨k', v'⟩ := p
    by_cases hk : k' = k
    · simp [updateC, lookupC, hk]
    · simp [updateC, lookupC, hk, ih]

theorem assignColors_spec (gs : List String) :
    ∀ (cm : List (String × String)) (pal : List String)
      (dc : Option String) (m : List (String × String)),
      assignColors cm pal dc gs = .ok m →
      ((∀ k, containsKey cm k = true → containsKey m k = true) ∧
       (∀ g, g ∈ gs → containsKey m g = true) ∧
       (∀ k, containsKey cm k = true → lookupC m k = lookupC cm k)) := by
  induction gs with
  | nil =>
    intro cm pal dc m h
    injection h with hinj
    subst hinj
    exact ⟨fun k hk => hk, by simp, fun k _ => rfl⟩
  | cons g gs ih =>
    intro cm pal dc m h
    unfold assignColors at h
    by_cases hg : containsKey cm g = true
    · rw [if_pos hg] at h
      obtain ⟨mono, tot, agree⟩ := ih cm pal dc m h
      refine ⟨mono, ?_, agree⟩
      intro g' hg'
      rcases List.mem_cons.mp hg' with rfl | hmem
      · exact mono g' hg
      · exact tot g' hmem
    · rw [if_neg hg] at h
      have step : ∀ (c : String) (pal' : List String),
          assignColors (cm ++ [(g, c)]) pal' dc gs = .ok m →
          ((∀ k, containsKey cm k = true → containsKey m k = true) ∧
           (∀ g', g' ∈ g :: gs → containsKey m g' = true) ∧
           (∀ k, containsKey cm k = true → lookupC m k = lookupC cm k)) := by
        intro c pal' hstep
        obtain ⟨mono, tot, agree⟩ := ih (cm ++ [(g, c)]) pal' dc m hstep
        have hext : ∀ k, containsKey cm k = true →
            containsKey (cm ++ [(g, c)]) k = true := by
          intro k hk
          rw [containsKey_append]
          simp [hk]
        refine ⟨fun k hk => mono k (hext k hk), ?_, ?_⟩
        · intro g' hg'
          rcases List.mem_cons.mp hg' with rfl | hmem
          · apply mono
            rw [containsKey_append]
            simp [containsKey]
          · exact tot g' hmem
        · intro k hk
          rw [agree k (hext k hk), lookupC_append_left cm [(g, c)] k hk]
      cases dc with
      | some c => exact step c pal h
      | none =>
        cases hf : findUnusedSplit (valuesOf cm) pal with
        | none => rw [hf] at h; exact absurd h (by simp)
        | some pr =>
          obtain ⟨c, rest⟩ := pr
          rw [hf] at h
          exact step c rest h

theorem assignColors_nodup (gs : List String) :
    ∀ (cm : List (String × String)) (pal : List String)
      (m : List (String × String)),
      assignColors cm pal none gs = .ok m →
      (valuesOf cm).Nodup → (valuesOf m).Nodup := by
  induction gs with
  | nil =>
    intro cm pal m h hnd
    injection h with hinj
    subst hinj
    exact hnd
  | cons g gs ih =>
    intro cm pal m h hnd
    unfold assignColors at h
    by_cases hg : containsKey cm g = true
    · rw [if_pos hg] at h
      exact ih cm pal m h hnd
    · rw [if_neg hg] at h
      cases hf : findUnusedSplit (valuesOf cm) pal with
      | none => rw [hf] at h; exact absurd h (by simp)
      | some pr =>
        obtain ⟨c, rest⟩ := pr
        rw [hf] at h
        refine ih (cm ++ [(g, c)]) rest m h ?_
        have hc : c ∉ valuesOf cm := findUnusedSplit_not_mem _ _ _ _ hf
        have hv : valuesOf (cm ++ [(g, c)]) = valuesOf cm ++ [c] := by
          simp [valuesOf]
        rw [hv]
        simp [List.nodup_append, hnd, hc]

/-- C1 counterexample: with an empty supplied mapping and a configured
default color `"red"`, the groups `"a"` and `"b"` are both assigned
`"red"`, so the produced mapping assigns the same color to two
different groups, refuting the claim as stated over all
configurations. -/
theorem c1_color_assigner_counterexample :
    assignColors [] colorScheme (some "red") ["a", "b"] =
      .ok [("a", "red"), ("b", "red")] ∧
    lookupC [("a", "red"), ("b", "red")] "a" =
      lookupC [("a", "red"), ("b", "red")] "b" ∧
    ("a" : String) ≠ "b" :=
  ⟨rfl, rfl, by decide⟩

/-- C1 (amended): for every dataset and configuration for which the
color assignment succeeds, the produced mapping is total over the
distinct group values fed to it, agrees with the user-supplied partial
mapping `P` on `P`'s keys, is deterministic (a pure function of its
inputs), and is written into the transient overlay under `'colormap'`;
when no default color is configured, palette assignment never reuses a
color already used as a value, so an injective `P` yields an injective
full mapping — with a configured default color all unmapped groups
deliberately share that color. -/
theorem c1_color_assigner :
    (∀ cm pal dc gs m, assignColors cm pal dc gs = .ok m →
      ∀ g, g ∈ gs → containsKey m g = true) ∧
    (∀ cm pal dc gs m, assignColors cm pal dc gs = .ok m →
      ∀ k, containsKey cm k = true → lookupC m k = lookupC cm k) ∧
    (∀ cm pal gs m, assignColors cm pal none gs = .ok m →
      (valuesOf cm).Nodup → (valuesOf m).Nodup) ∧
    (∀ cm pal dc gs, assignColors cm pal dc gs = assignColors cm pal dc gs) ∧
    (∀ st df st' pairs, cget st "colormap" = some (.vColormap pairs) →
      populateTransientColormapState st df = .ok st' →
      ∃ mm, lookupC (st'.transient.getD []) "colormap" =
        some (.vColormap mm)) := by
  refine ⟨?_, ?_, ?_, fun cm pal dc gs => rfl, ?_⟩
  · intro cm pal dc gs m h g hg
    exact (assignColors_spec gs cm pal dc m h).2.1 g hg
  · intro cm pal dc gs m h k hk
    exact (assignColors_spec gs cm pal dc m h).2.2 k hk
  · intro cm pal gs m h hnd
    exact assignColors_nodup gs cm pal m h hnd
  · intro st df st' pairs hcm hpop
    unfold populateTransientColormapState at hpop
    rw [hcm] at hpop
    split at hpop
    · rename_i heq
      exact absurd heq (by simp)
    · split at hpop
      · exact absurd hpop (by simp)
      · split at hpop
        · exact absurd hpop (by simp)
        · split at hpop
          · rename_i mm hmm
            injection hpop with hinj
            subst hinj
            exact ⟨mm, lookupC_updateC_self _ "colormap" _⟩
          · exact absurd hpop (by simp)
    · rename_i val hne heq
      injection heq with h2
      exact (hne pairs h2.symm).elim

theorem c1_color_assigner_witness :
    containsKey [("a", "#111111"), ("b", "#4e79a7")] "b" = true ∧
    lookupC [("a", "#111111"), ("b", "#4e79a7")] "a" =
      lookupC [("a", "#111111")] "a" ∧
    (valuesOf [("a", "#111111"), ("b", "#4e79a7")]).Nodup ∧
    (∃ mm, lookupC
      ((setTransientKey stColormapOk "colormap"
        (.vColormap [])).transient.getD []) "colormap" =
      some (.vColormap mm)) :=
  ⟨c1_color_assigner.1 [("a", "#111111")] colorScheme none ["a", "b"]
      [("a", "#111111"), ("b", "#4e79a7")] rfl "b" (by decide),
   c1_color_assigner.2.1 [("a", "#111111")] colorScheme none ["a", "b"]
      [("a", "#111111"), ("b", "#4e79a7")] rfl "a" rfl,
   c1_color_assigner.2.2.1 [("a", "#111111")] colorScheme ["a", "b"]
      [("a", "#111111"), ("b", "#4e79a7")] rfl (by decide),
   c1_color_assigner.2.2.2.2 stColormapOk dfNativeOk
      (setTransientKey stColormapOk "colormap" (.vColormap [])) [] rfl rfl⟩
